import Mathlib

/-!
Verification of the Stash ephemeral key-value store (tiered TTL-store engine).

This file shallowly embeds the core of the application:
  * `app/services/redis_service.py` — the namespaced record store
    (`RedisService`): key composition, SETEX-based create, TTL-aware
    recall, read-modify-write update, delete, and the fakeredis fallback
    in `connect`;
  * `app/core/auth.py` — the tier policy attached to `User`
    (`max_payload_bytes`, `default_ttl_seconds`, `max_ttl_seconds`);
  * `app/models/schemas.py` — request validation (`StashRequest`,
    `UpdateRequest`) including the schema-level TTL default;
  * `app/main.py` — the HTTP handlers (`stash`, `recall`, `update`,
    `delete_stash`, `health_check`) that mediate between tier policy and
    the record store;
  * `app/core/middleware.py` — the flat pre-auth payload-size ceiling.

The backing Redis store is modelled as an association list from key
strings to a stored record plus its remaining TTL in seconds.  Wall-clock
time is abstracted: timestamps are naturals passed in as `now`, and the
remaining TTL of each key is part of the state (Redis's `TTL` command
reads it, `SETEX`/`EXPIRE` write it).  A `SETEX` with a non-positive TTL
raises an error in Redis; this is modelled with `Except`.
-/

/-! ## JSON values

The store treats payloads opaquely (`json.dumps` / `json.loads` round
trip).  JSON null is a distinct value: in the Python layer it
deserializes to `None`, which is what makes a `null` `data` field in an
update request indistinguishable from an absent one. -/

mutual
/-- A JSON-serializable value, as stored in the `data` field. -/
inductive Json where
  | null
  | bool (b : Bool)
  | num (n : Int)
  | str (s : String)
  | arr (items : JsonList)
  | obj (entries : JsonObj)
deriving DecidableEq, Repr

/-- A list of JSON values (a JSON array). -/
inductive JsonList where
  | nil
  | cons (hd : Json) (tl : JsonList)
deriving DecidableEq, Repr

/-- String-keyed JSON object fields. -/
inductive JsonObj where
  | nil
  | cons (key : String) (val : Json) (tl : JsonObj)
deriving DecidableEq, Repr
end

/-! ## Tier policy (`app/core/auth.py`) -/

/-- Service tiers with different limits (`UserTier` in `auth.py`). -/
inductive UserTier where
  | free
  | pro
  | enterprise
deriving DecidableEq, Repr

/-- Authenticated user with tier information (`User` in `auth.py`). -/
structure User where
  id : String
  tier : UserTier
deriving DecidableEq, Repr

/-- Maximum payload size for this tier (`User.max_payload_bytes`). -/
def User.max_payload_bytes (u : User) : Int :=
  match u.tier with
  | .free => 1048576
  | .pro => 52428800
  | .enterprise => 524288000

/-- Default TTL for this tier (`User.default_ttl_seconds`).  Note: this
property exists in `auth.py` but is never consulted by the handlers. -/
def User.default_ttl_seconds (u : User) : Int :=
  match u.tier with
  | .free => 3600
  | .pro => 86400
  | .enterprise => 86400

/-- Maximum allowed TTL for this tier (`User.max_ttl_seconds`). -/
def User.max_ttl_seconds (u : User) : Int :=
  match u.tier with
  | .free => 3600
  | .pro => 86400
  | .enterprise => 604800

/-! ## The backing store state

Only `SETEX` is ever used to write, so every present key carries a
remaining TTL (an integer number of seconds).  A state may hold a key
whose remaining TTL is `0`: real Redis reports `TTL = 0` (and still
serves `GET`) during the final sub-second window before eviction. -/

/-- A record as serialized into Redis by the service: the JSON object
`\x7b"data": …, "created_at": …, "updated_at": …\x7d`. -/
structure StoredRecord where
  data : Json
  created_at : Nat
  updated_at : Option Nat
deriving DecidableEq, Repr

/-- The backing store: an association list from Redis keys to the stored
record and its remaining TTL in seconds. -/
def Store : Type := List (String × StoredRecord × Int)

instance : DecidableEq Store :=
  inferInstanceAs (DecidableEq (List (String × StoredRecord × Int)))

instance : Repr Store :=
  inferInstanceAs (Repr (List (String × StoredRecord × Int)))

/-- Lookup of a key in the store (Redis `GET` plus `TTL`, atomically). -/
def storeGet : Store → String → Option (StoredRecord × Int)
  | [], _ => none
  | (k, v) :: rest, key => if k = key then some v else storeGet rest key

/-- Removal of every binding of a key (Redis `DEL`). -/
def storeDel : Store → String → Store
  | [], _ => []
  | (k, v) :: rest, key =>
      if k = key then storeDel rest key else (k, v) :: storeDel rest key

/-- Overwrite of a key's binding (the effect of a successful `SETEX`). -/
def storeSet (st : Store) (k : String) (v : StoredRecord × Int) : Store :=
  (k, v) :: storeDel st k

/-! ## Redis command primitives -/

/-- Redis `TTL key`: `-2` when the key does not exist, otherwise the
remaining TTL.  (`-1`, no expiry, is unreachable here: every write path
of the service uses `SETEX`.) -/
def redisTtl (st : Store) (k : String) : Int :=
  match storeGet st k with
  | none => -2
  | some (_, t) => t

/-- Redis `SETEX key ttl value`: atomic set-with-expiry.  Redis rejects a
non-positive expire time with an error, modelled as `Except.error`. -/
def redisSetex (st : Store) (k : String) (ttl : Int) (v : StoredRecord) :
    Except Unit Store :=
  if 1 ≤ ttl then Except.ok (storeSet st k (v, ttl)) else Except.error ()

/-- Redis `EXPIRE key ttl`: on an existing key, a positive `ttl` resets
the remaining TTL and a non-positive one deletes the key; on a missing
key it is a no-op. -/
def redisExpire (st : Store) (k : String) (ttl : Int) : Store :=
  match storeGet st k with
  | none => st
  | some (rec, _) =>
      if 1 ≤ ttl then storeSet st k (rec, ttl) else storeDel st k

/-- Redis `DEL key`: returns how many keys were removed (0 or 1 here)
together with the new state. -/
def redisDel (st : Store) (k : String) : Nat × Store :=
  match storeGet st k with
  | none => (0, st)
  | some _ => (1, storeDel st k)

/-- Redis `GET key` (the service stores JSON strings; deserialization is
implicit in the model). -/
def redisGet (st : Store) (k : String) : Option StoredRecord :=
  (storeGet st k).map Prod.fst

/-! ## The record store service (`app/services/redis_service.py`) -/

namespace RedisService

/-- Key composition `RedisService._make_key`:
`user:` + user_id + `:` + memory_id. -/
def _make_key (user_id memory_id : String) : String :=
  "user:" ++ user_id ++ ":" ++ memory_id

/-- Which client `RedisService.connect` ends up holding: the real Redis
client, or the in-memory `fakeredis` substitute. -/
inductive RedisClient where
  | real
  | fake
deriving DecidableEq, Repr

/-- Embeds `RedisService.connect`: `pingOk` is whether constructing the
client and pinging the configured Redis succeeds; on
`redis.ConnectionError` the except-branch silently installs a
`fakeredis.aioredis.FakeRedis` in-memory client instead. -/
def connect (pingOk : Bool) : RedisClient :=
  if pingOk then RedisClient.real else RedisClient.fake

/-- Whether a `ping` on the held client succeeds: the real client needs
the Redis server to be up, the fakeredis client always responds. -/
def clientPingOk (c : RedisClient) (serverUp : Bool) : Bool :=
  match c with
  | RedisClient.real => serverUp
  | RedisClient.fake => true

/-- Embeds `RedisService.stash`: serialize `data` with `created_at`,
then `SETEX` (atomic set-with-expiry).  Returns the new store state. -/
def stash (st : Store) (now : Nat) (user_id memory_id : String)
    (data : Json) (ttl_seconds : Int) : Except Unit Store :=
  let key := _make_key user_id memory_id
  let value : StoredRecord := { data := data, created_at := now, updated_at := none }
  redisSetex st key ttl_seconds value

/-- Result dictionary of `RedisService.recall`. -/
structure RecallResult where
  data : Json
  ttl_remaining : Int
  created_at : Nat
deriving DecidableEq, Repr

/-- Embeds `RedisService.recall`: `GET`, then `TTL`; `none` when the key
is absent or the reported TTL is negative (the source comments `-1`
means no expiry, `-2` means the key does not exist).  (`recall` itself is
a reserved word in this Lean environment, hence the prime.) -/
def recall' (st : Store) (user_id memory_id : String) : Option RecallResult :=
  let key := _make_key user_id memory_id
  match redisGet st key with
  | none => none
  | some parsed =>
      let ttl := redisTtl st key
      if ttl < 0 then none
      else some { data := parsed.data, ttl_remaining := ttl, created_at := parsed.created_at }

/-- Result dictionary of `RedisService.update`. -/
structure UpdateResult where
  data : Json
  ttl_remaining : Int
deriving DecidableEq, Repr

/-- Embeds `RedisService.update`: `GET` then `TTL` (absent or negative
TTL yields `none`, the not-found outcome), replace the `data` field when
one was provided, add `extra_time` to the remaining TTL when provided,
stamp `updated_at`, and `SETEX` the record back with the new TTL. -/
def update (st : Store) (now : Nat) (user_id memory_id : String)
    (data : Option Json) (extra_time : Option Int) :
    Except Unit (Option UpdateResult × Store) :=
  let key := _make_key user_id memory_id
  match redisGet st key with
  | none => Except.ok (none, st)
  | some parsed =>
      let current_ttl := redisTtl st key
      if current_ttl < 0 then Except.ok (none, st)
      else
        let parsed2 : StoredRecord :=
          match data with
          | some d => { parsed with data := d }
          | none => parsed
        let new_ttl : Int :=
          match extra_time with
          | some e => current_ttl + e
          | none => current_ttl
        let parsed3 : StoredRecord := { parsed2 with updated_at := some now }
        match redisSetex st key new_ttl parsed3 with
        | Except.error e => Except.error e
        | Except.ok st2 =>
            Except.ok (some { data := parsed3.data, ttl_remaining := new_ttl }, st2)

/-- Embeds `RedisService.delete`: `DEL` the key, report whether a record
existed. -/
def delete (st : Store) (user_id memory_id : String) : Bool × Store :=
  let key := _make_key user_id memory_id
  let res := redisDel st key
  (res.1 > 0, res.2)

end RedisService

/-! ## Request schemas (`app/models/schemas.py`) -/

/-- Validated body of `POST /stash` (`StashRequest`). -/
structure StashRequest where
  data : Json
  ttl : Int
deriving DecidableEq, Repr

/-- Field constraints on `StashRequest.ttl`: `ge=1, le=86400`. -/
def StashRequest.valid (r : StashRequest) : Prop :=
  1 ≤ r.ttl ∧ r.ttl ≤ 86400

instance (r : StashRequest) : Decidable r.valid :=
  inferInstanceAs (Decidable (1 ≤ r.ttl ∧ r.ttl ≤ 86400))

/-- Raw wire body of `POST /stash` before validation: the `ttl` key may
be absent. -/
structure RawStashBody where
  data : Json
  ttl : Option Int
deriving DecidableEq, Repr

/-- Pydantic validation of a raw stash body: an absent `ttl` takes the
schema-level `default=3600` (there is no tier information at this
layer), then the `ge=1, le=86400` bounds are checked. -/
def parseStashRequest (b : RawStashBody) : Option StashRequest :=
  let t : Int :=
    match b.ttl with
    | some t => t
    | none => 3600
  if 1 ≤ t ∧ t ≤ 86400 then some { data := b.data, ttl := t } else none

/-- Validated body of `PATCH /update/...` (`UpdateRequest`): `data` is
`Optional[Any]` defaulting to `None`, `extra_time` is optional. -/
structure UpdateRequest where
  data : Option Json
  extra_time : Option Int
deriving DecidableEq, Repr

/-- Bounds check on an optional integer field (pydantic `ge`/`le`): an
absent field passes, a present one must lie in the range. -/
def optIntInRange (lo hi : Int) : Option Int → Prop
  | none => True
  | some e => lo ≤ e ∧ e ≤ hi

instance (lo hi : Int) : (o : Option Int) → Decidable (optIntInRange lo hi o)
  | none => isTrue trivial
  | some e => inferInstanceAs (Decidable (lo ≤ e ∧ e ≤ hi))

/-- Constraints on `UpdateRequest`: `extra_time` carries `ge=1,
le=86400`, and the model validator requires at least one of `data`,
`extra_time` to be present. -/
def UpdateRequest.valid (r : UpdateRequest) : Prop :=
  optIntInRange 1 86400 r.extra_time ∧ ¬(r.data = none ∧ r.extra_time = none)

instance (r : UpdateRequest) : Decidable r.valid :=
  inferInstanceAs (Decidable (optIntInRange 1 86400 r.extra_time ∧ _))

/-- Pydantic parsing of the `data` field of an update body
(`Optional[Any] = None`): JSON `null` deserializes to Python `None`,
identical to the field being absent altogether. -/
def parseUpdateData : Option Json → Option Json
  | some Json.null => none
  | x => x

/-! ## Response schemas (`app/models/schemas.py`) -/

/-- Response of a successful `POST /stash` (`StashResponse`).
Timestamps are seconds since the epoch of the model. -/
structure StashResponse where
  memory_id : String
  ttl : Int
  expires_at : Int
deriving DecidableEq, Repr

/-- Response of a successful `GET /recall/...` (`RecallResponse`). -/
structure RecallResponse where
  memory_id : String
  data : Json
  ttl_remaining : Int
deriving DecidableEq, Repr

/-- Response of a successful `PATCH /update/...` (`UpdateResponse`). -/
structure UpdateResponse where
  memory_id : String
  data : Json
  ttl_remaining : Int
  expires_at : Int
deriving DecidableEq, Repr

/-- Response of `GET /health`. -/
structure HealthResponse where
  status : String
  redis : String
  user_db : String
deriving DecidableEq, Repr

/-! ## HTTP handlers (`app/main.py`)

Each handler receives the already-authenticated `User` (the
`get_current_user` dependency) and the current store state, and returns
the response together with the next state.  `memory_id` in `stash` is
the freshly generated `secrets.token_urlsafe(6)` token, modelled as a
parameter.  A `none` result models an `HTTPException(404)`. -/

namespace Main

/-- Embeds the `POST /stash` handler `stash`: clamp the requested TTL to
the tier limit, store via the record store, then compute `expires_at`.
The source computes `expires_at` from `request.ttl` (the requested
value), not from the clamped `ttl` that was stored. -/
def stash (st : Store) (now : Nat) (user : User) (memory_id : String)
    (request : StashRequest) : Except Unit (StashResponse × Store) :=
  let ttl := min request.ttl user.max_ttl_seconds
  match RedisService.stash st now user.id memory_id request.data ttl with
  | Except.error e => Except.error e
  | Except.ok st2 =>
      let expires_at : Int := (now : Int) + request.ttl
      Except.ok ({ memory_id := memory_id, ttl := ttl, expires_at := expires_at }, st2)

/-- Embeds the `GET /recall/\x7bmemory_id\x7d` handler: a `none` from
the service becomes a 404, otherwise the result is marshalled. -/
def recall' (st : Store) (user : User) (memory_id : String) : Option RecallResponse :=
  match RedisService.recall' st user.id memory_id with
  | none => none
  | some result =>
      some { memory_id := memory_id, data := result.data,
             ttl_remaining := result.ttl_remaining }

/-- Embeds the `PATCH /update/\x7bmemory_id\x7d` handler `update`:
delegate to the record store; on success enforce the tier limit on the
extended TTL — when the store-reported remaining TTL exceeds
`user.max_ttl_seconds`, clamp it and push the corrected expiry back with
`EXPIRE` before responding.  The source computes `expires_at` from the
unclamped store-reported TTL. -/
def update (st : Store) (now : Nat) (user : User) (memory_id : String)
    (request : UpdateRequest) : Except Unit (Option (UpdateResponse × Store)) :=
  match RedisService.update st now user.id memory_id request.data request.extra_time with
  | Except.error e => Except.error e
  | Except.ok (none, _) => Except.ok none
  | Except.ok (some result, st2) =>
      let new_ttl :=
        if result.ttl_remaining > user.max_ttl_seconds then user.max_ttl_seconds
        else result.ttl_remaining
      let st3 :=
        if result.ttl_remaining > user.max_ttl_seconds then
          redisExpire st2 (RedisService._make_key user.id memory_id) new_ttl
        else st2
      let expires_at : Int := (now : Int) + result.ttl_remaining
      Except.ok (some ({ memory_id := memory_id, data := result.data,
                         ttl_remaining := new_ttl, expires_at := expires_at }, st3))

/-- Embeds the `DELETE /stash/\x7bmemory_id\x7d` handler `delete_stash`:
`none` models the 404 branch, `some st2` the 204 success. -/
def delete_stash (st : Store) (user : User) (memory_id : String) : Option Store :=
  let res := RedisService.delete st user.id memory_id
  if res.1 then some res.2 else none

/-- Embeds the `GET /health` handler `health_check`: the overall status
string is unconditionally `healthy`; the redis check pings whatever
client `connect` installed, the user-db check runs a probe query. -/
def health_check (c : RedisService.RedisClient) (redisServerUp : Bool)
    (dbOk : Bool) : HealthResponse :=
  { status := "healthy"
  , redis := if RedisService.clientPingOk c redisServerUp then "connected" else "disconnected"
  , user_db := if dbOk then "connected" else "disconnected" }

end Main

/-! ## Payload-size middleware (`app/core/middleware.py`) -/

namespace PayloadSizeMiddleware

/-- Flat pre-auth payload ceiling (`DEFAULT_LIMIT = 1_048_576`). -/
def DEFAULT_LIMIT : Int := 1048576

/-- Embeds `PayloadSizeMiddleware.dispatch`'s rejection condition: for a
POST/PUT/PATCH request carrying a Content-Length header, a size above
the flat limit is answered 413 before authentication or any handler
runs. -/
def rejects (method : String) (content_length : Option Int) : Bool :=
  if method = "POST" ∨ method = "PUT" ∨ method = "PATCH" then
    match content_length with
    | some size => size > DEFAULT_LIMIT
    | none => false
  else false

end PayloadSizeMiddleware

/-- Outcome of sending a `POST /stash` request through the middleware
stack and the handler. -/
inductive StashHttpOutcome where
  | payloadTooLarge
  | ok (resp : StashResponse) (st : Store)
  | serverError
deriving DecidableEq, Repr

/-- Full request path of `POST /stash`: the middleware checks the
Content-Length against the flat 1 MiB ceiling; past it, the handler
`Main.stash` runs.  Neither consults `user.max_payload_bytes` — the
handler performs no tier-aware payload check (there is none in
`main.stash`), so the body size is never compared against the tier
limit. -/
def stashPipeline (content_length : Option Int) (st : Store) (now : Nat)
    (user : User) (memory_id : String) (request : StashRequest) : StashHttpOutcome :=
  if PayloadSizeMiddleware.rejects "POST" content_length then
    StashHttpOutcome.payloadTooLarge
  else
    match Main.stash st now user memory_id request with
    | Except.ok (r, s) => StashHttpOutcome.ok r s
    | Except.error _ => StashHttpOutcome.serverError

/-! ## Store lemmas -/

theorem storeGet_storeDel (k k2 : String) (st : Store) :
    storeGet (storeDel st k) k2 = if k2 = k then none else storeGet st k2 := by
  induction st with
  | nil => simp [storeDel, storeGet]
  | cons e rest ih =>
      obtain ⟨a, v⟩ := e
      by_cases hak : a = k <;> by_cases hak2 : a = k2 <;>
        simp_all [storeDel, storeGet]

theorem storeGet_storeSet (st : Store) (k k2 : String) (v : StoredRecord × Int) :
    storeGet (storeSet st k v) k2 = if k2 = k then some v else storeGet st k2 := by
  by_cases h : k2 = k
  · simp [storeSet, storeGet, storeGet_storeDel, h]
  · have h2 : ¬k = k2 := fun hx => h hx.symm
    simp [storeSet, storeGet, storeGet_storeDel, h, h2]

/-- Injectivity of `_make_key` in the `user_id` argument, for a fixed
`memory_id` — the shared suffix `:` + memory_id and the shared prefix
`user:` cancel, even when the ids themselves contain `:`. -/
theorem _make_key_inj_user (a b m : String)
    (h : RedisService._make_key a m = RedisService._make_key b m) : a = b := by
  unfold RedisService._make_key at h
  have h2 : ("user:" ++ a ++ ":" ++ m).data = ("user:" ++ b ++ ":" ++ m).data := by
    rw [h]
  simp only [String.data_append] at h2
  have h3 := List.append_cancel_right h2
  have h4 := List.append_cancel_right h3
  have h5 := List.append_cancel_left h4
  exact String.ext h5

/-! ## Claims -/

/-- C1: Namespace isolation.  For any two distinct `user_id` strings `A`
and `B` (including ids containing `:`) and any `memory_id` `m`, in any
state where `B` holds no record under `m`, after `A` creates a record
under `m`: `B`'s recall, update (with any arguments) and delete on `m`
all report not-found and leave the state — in particular `A`'s record —
unchanged, while `A`'s own recall of `m` still succeeds and returns the
stored record. -/
theorem namespace_isolation_after_create
    (A B m : String) (hAB : A ≠ B)
    (st : Store) (hB : storeGet st (RedisService._make_key B m) = none)
    (d : Json) (ttl : Int) (httl : 1 ≤ ttl) (now : Nat)
    (st1 : Store) (hS : RedisService.stash st now A m d ttl = Except.ok st1)
    (dB : Option Json) (eB : Option Int) :
    RedisService.recall' st1 B m = none ∧
    RedisService.update st1 now B m dB eB = Except.ok (none, st1) ∧
    RedisService.delete st1 B m = (false, st1) ∧
    RedisService.recall' st1 A m =
      some { data := d, ttl_remaining := ttl, created_at := now } ∧
    storeGet st1 (RedisService._make_key A m) =
      some ({ data := d, created_at := now, updated_at := none }, ttl) := by
  have hkey : RedisService._make_key B m ≠ RedisService._make_key A m := fun hk =>
    hAB (_make_key_inj_user B A m hk).symm
  simp only [RedisService.stash, redisSetex, if_pos httl, Except.ok.injEq] at hS
  subst hS
  have hBget : storeGet (storeSet st (RedisService._make_key A m)
      ({ data := d, created_at := now, updated_at := none }, ttl))
      (RedisService._make_key B m) = none := by
    rw [storeGet_storeSet, if_neg hkey, hB]
  have hAget : storeGet (storeSet st (RedisService._make_key A m)
      ({ data := d, created_at := now, updated_at := none }, ttl))
      (RedisService._make_key A m) =
      some ({ data := d, created_at := now, updated_at := none }, ttl) := by
    rw [storeGet_storeSet, if_pos rfl]
  have hnn : ¬ttl < 0 := by omega
  refine ⟨?_, ?_, ?_, ?_, hAget⟩
  · simp [RedisService.recall', redisGet, hBget]
  · simp [RedisService.update, redisGet, hBget]
  · simp [RedisService.delete, redisDel, hBget]
  · simp [RedisService.recall', redisGet, redisTtl, hAget, hnn]

/-- C1 witness: concrete instantiation with colon-containing user id
`u:x` against user `u`, memory id `y`, on the empty store. -/
theorem namespace_isolation_after_create_witness :
    ("u:x" : String) ≠ "u" ∧
    storeGet [] (RedisService._make_key "u" "y") = none ∧
    (1 : Int) ≤ 60 ∧
    RedisService.stash [] 5 "u:x" "y" (Json.str "secret") 60 =
      Except.ok [("user:u:x:y",
        ({ data := Json.str "secret", created_at := 5, updated_at := none } : StoredRecord),
        (60 : Int))] ∧
    (RedisService.recall' [("user:u:x:y",
        ({ data := Json.str "secret", created_at := 5, updated_at := none } : StoredRecord),
        (60 : Int))] "u" "y" = none ∧
     RedisService.update [("user:u:x:y",
        ({ data := Json.str "secret", created_at := 5, updated_at := none } : StoredRecord),
        (60 : Int))] 5 "u" "y" none none =
       Except.ok (none, [("user:u:x:y",
        ({ data := Json.str "secret", created_at := 5, updated_at := none } : StoredRecord),
        (60 : Int))]) ∧
     RedisService.delete [("user:u:x:y",
        ({ data := Json.str "secret", created_at := 5, updated_at := none } : StoredRecord),
        (60 : Int))] "u" "y" = (false, [("user:u:x:y",
        ({ data := Json.str "secret", created_at := 5, updated_at := none } : StoredRecord),
        (60 : Int))]) ∧
     RedisService.recall' [("user:u:x:y",
        ({ data := Json.str "secret", created_at := 5, updated_at := none } : StoredRecord),
        (60 : Int))] "u:x" "y" =
       some { data := Json.str "secret", ttl_remaining := 60, created_at := 5 } ∧
     storeGet [("user:u:x:y",
        ({ data := Json.str "secret", created_at := 5, updated_at := none } : StoredRecord),
        (60 : Int))] (RedisService._make_key "u:x" "y") =
       some ({ data := Json.str "secret", created_at := 5, updated_at := none }, 60)) :=
  ⟨by decide, by rfl, by decide,
   by rfl,
   namespace_isolation_after_create "u:x" "u" "y" (by decide) [] (by rfl)
     (Json.str "secret") 60 (by decide) 5 _ (by rfl) none none⟩

/-- Helper: every tier allows a TTL of at least 3600 seconds. -/
theorem max_ttl_seconds_ge (user : User) : (3600 : Int) ≤ user.max_ttl_seconds := by
  obtain ⟨uid, tier⟩ := user
  cases tier <;> norm_num [User.max_ttl_seconds]

/-- C2: the create/stash handler stores the record with TTL exactly
`min(requested, tier.max_ttl_seconds)`, which never exceeds the tier
maximum, and reports that clamped TTL in the response. -/
theorem create_stores_clamped_ttl
    (st : Store) (now : Nat) (user : User) (m : String)
    (req : StashRequest) (hv : req.valid)
    (resp : StashResponse) (st2 : Store)
    (hrun : Main.stash st now user m req = Except.ok (resp, st2)) :
    storeGet st2 (RedisService._make_key user.id m) =
      some ({ data := req.data, created_at := now, updated_at := none },
        min req.ttl user.max_ttl_seconds) ∧
    resp.ttl = min req.ttl user.max_ttl_seconds ∧
    min req.ttl user.max_ttl_seconds ≤ user.max_ttl_seconds := by
  have hmin1 : (1 : Int) ≤ min req.ttl user.max_ttl_seconds :=
    le_min hv.1 (le_trans (by norm_num) (max_ttl_seconds_ge user))
  simp only [Main.stash, RedisService.stash, redisSetex, if_pos hmin1,
    Except.ok.injEq, Prod.mk.injEq] at hrun
  obtain ⟨h1, h2⟩ := hrun
  subst h1
  subst h2
  exact ⟨by rw [storeGet_storeSet, if_pos rfl], rfl, min_le_right _ _⟩

/-- C2 witness: a free-tier request of `ttl=86400` is stored and
reported with TTL `3600`. -/
theorem create_stores_clamped_ttl_witness :
    StashRequest.valid { data := Json.str "x", ttl := 86400 } ∧
    Main.stash [] 0 { id := "free1", tier := UserTier.free } "m1"
      { data := Json.str "x", ttl := 86400 } =
      Except.ok ({ memory_id := "m1", ttl := 3600, expires_at := 86400 },
        [("user:free1:m1",
          ({ data := Json.str "x", created_at := 0, updated_at := none } : StoredRecord),
          (3600 : Int))]) ∧
    storeGet [("user:free1:m1",
        ({ data := Json.str "x", created_at := 0, updated_at := none } : StoredRecord),
        (3600 : Int))] (RedisService._make_key "free1" "m1") =
      some ({ data := Json.str "x", created_at := 0, updated_at := none }, 3600) ∧
    (3600 : Int) ≤ ({ id := "free1", tier := UserTier.free } : User).max_ttl_seconds := by
  have h := create_stores_clamped_ttl [] 0 { id := "free1", tier := UserTier.free } "m1"
    { data := Json.str "x", ttl := 86400 } (by decide)
    { memory_id := "m1", ttl := 3600, expires_at := 86400 }
    [("user:free1:m1",
      ({ data := Json.str "x", created_at := 0, updated_at := none } : StoredRecord),
      (3600 : Int))] (by rfl)
  refine ⟨by decide, by rfl, ?_, ?_⟩
  · simpa [User.max_ttl_seconds] using h.1
  · simp [User.max_ttl_seconds]

theorem redisExpire_present (st : Store) (k : String) (rec : StoredRecord)
    (t t2 : Int) (h : storeGet st k = some (rec, t)) (h2 : 1 ≤ t2) :
    redisExpire st k t2 = storeSet st k (rec, t2) := by
  unfold redisExpire
  rw [h]
  simp [h2]

theorem redisExpire_storeSet (st : Store) (k : String) (v : StoredRecord)
    (t t2 : Int) (h2 : 1 ≤ t2) :
    redisExpire (storeSet st k (v, t)) k t2 =
      storeSet (storeSet st k (v, t)) k (v, t2) := by
  unfold redisExpire
  rw [storeGet_storeSet, if_pos rfl]
  simp [h2]

/-- C3: TTL upper-bound invariant.  After tier-policy enforcement
completes on a create (`Main.stash` succeeds) or an update
(`Main.update` succeeds), the record stored under the user's key has
`0 < ttl <= user.max_ttl_seconds`; for update, the clamped value pushed
back into the store is exactly the `ttl_remaining` reported to the
caller. -/
theorem tier_ttl_invariant_after_enforcement
    (user : User) (m : String) (now : Nat)
    (stC : Store) (sreq : StashRequest) (hsv : sreq.valid)
    (respC : StashResponse) (stC' : Store)
    (hC : Main.stash stC now user m sreq = Except.ok (respC, stC'))
    (recC : StoredRecord) (tC : Int)
    (hCget : storeGet stC' (RedisService._make_key user.id m) = some (recC, tC))
    (stU : Store) (ureq : UpdateRequest) (_huv : ureq.valid)
    (respU : UpdateResponse) (stU' : Store)
    (hU : Main.update stU now user m ureq = Except.ok (some (respU, stU')))
    (recU : StoredRecord) (tU : Int)
    (hUget : storeGet stU' (RedisService._make_key user.id m) = some (recU, tU)) :
    (0 < tC ∧ tC ≤ user.max_ttl_seconds) ∧
    (0 < tU ∧ tU ≤ user.max_ttl_seconds) ∧
    respU.ttl_remaining = tU := by
  have hmax : (3600 : Int) ≤ user.max_ttl_seconds := max_ttl_seconds_ge user
  constructor
  · -- create path
    have hmin1 : (1 : Int) ≤ min sreq.ttl user.max_ttl_seconds :=
      le_min hsv.1 (le_trans (by norm_num) hmax)
    simp only [Main.stash, RedisService.stash, redisSetex, if_pos hmin1,
      Except.ok.injEq, Prod.mk.injEq] at hC
    obtain ⟨h1, h2⟩ := hC
    subst h2
    rw [storeGet_storeSet, if_pos rfl] at hCget
    simp only [Option.some.injEq, Prod.mk.injEq] at hCget
    obtain ⟨hrec, ht⟩ := hCget
    subst ht
    exact ⟨by omega, min_le_right _ _⟩
  · -- update path
    rcases hsg : storeGet stU (RedisService._make_key user.id m) with _ | ⟨parsed, t0⟩
    · have hg : redisGet stU (RedisService._make_key user.id m) = none := by
        simp [redisGet, hsg]
      simp [Main.update, RedisService.update, hg] at hU
    · have hg : redisGet stU (RedisService._make_key user.id m) = some parsed := by
        simp [redisGet, hsg]
      have ht0 : redisTtl stU (RedisService._make_key user.id m) = t0 := by
        simp [redisTtl, hsg]
      by_cases hneg : t0 < 0
      · simp [Main.update, RedisService.update, hg, ht0, hneg] at hU
      · simp only [Main.update, RedisService.update, hg, ht0, if_neg hneg] at hU
        set new_ttl : Int :=
          (match ureq.extra_time with
           | some e => t0 + e
           | none => t0) with hnt
        by_cases hpos : 1 ≤ new_ttl
        · simp only [redisSetex, ← hnt, if_pos hpos, Except.ok.injEq,
            Option.some.injEq, Prod.mk.injEq] at hU
          by_cases hclamp : new_ttl > user.max_ttl_seconds
          · simp only [if_pos hclamp] at hU
            obtain ⟨hresp, hst⟩ := hU
            rw [redisExpire_storeSet _ _ _ _ _ (le_trans (by norm_num) hmax)] at hst
            rw [← hst, storeGet_storeSet, if_pos rfl] at hUget
            simp only [Option.some.injEq, Prod.mk.injEq] at hUget
            obtain ⟨hrecU, htU⟩ := hUget
            subst htU
            exact ⟨⟨by omega, le_refl _⟩, by rw [← hresp]⟩
          · simp only [if_neg hclamp] at hU
            obtain ⟨hresp, hst⟩ := hU
            rw [← hst, storeGet_storeSet, if_pos rfl] at hUget
            simp only [Option.some.injEq, Prod.mk.injEq] at hUget
            obtain ⟨hrecU, htU⟩ := hUget
            subst htU
            exact ⟨⟨by omega, by omega⟩, by rw [← hresp]⟩
        · simp [redisSetex, ← hnt, if_neg hpos] at hU

/-- C3 witness: a free-tier create with `ttl=60` and, on a separate
store, a free-tier update with `extra_time=120` on a record with 3600s
remaining (so the store-computed 3720 exceeds the 3600 tier maximum and
is clamped and pushed back). -/
theorem tier_ttl_invariant_after_enforcement_witness :
    StashRequest.valid { data := Json.str "x", ttl := 60 } ∧
    Main.stash [] 0 { id := "free1", tier := UserTier.free } "m1"
      { data := Json.str "x", ttl := 60 } =
      Except.ok ({ memory_id := "m1", ttl := 60, expires_at := 60 },
        [("user:free1:m1",
          ({ data := Json.str "x", created_at := 0, updated_at := none } : StoredRecord),
          (60 : Int))]) ∧
    UpdateRequest.valid { data := none, extra_time := some 120 } ∧
    Main.update [("user:free1:m1",
        ({ data := Json.str "x", created_at := 0, updated_at := none } : StoredRecord),
        (3600 : Int))] 0 { id := "free1", tier := UserTier.free } "m1"
      { data := none, extra_time := some 120 } =
      Except.ok (some ({ memory_id := "m1", data := Json.str "x", ttl_remaining := 3600, expires_at := 3720 },
        [("user:free1:m1",
          ({ data := Json.str "x", created_at := 0, updated_at := some 0 } : StoredRecord),
          (3600 : Int))])) ∧
    ((0 < (60 : Int) ∧ (60 : Int) ≤ 3600) ∧
     (0 < (3600 : Int) ∧ (3600 : Int) ≤ 3600) ∧
     (3600 : Int) = 3600) :=
  ⟨by decide, by rfl, by decide, by rfl,
   tier_ttl_invariant_after_enforcement
     { id := "free1", tier := UserTier.free } "m1" 0
     [] { data := Json.str "x", ttl := 60 } (by decide)
     { memory_id := "m1", ttl := 60, expires_at := 60 }
     [("user:free1:m1",
       ({ data := Json.str "x", created_at := 0, updated_at := none } : StoredRecord),
       (60 : Int))] (by rfl)
     { data := Json.str "x", created_at := 0, updated_at := none } 60 (by rfl)
     [("user:free1:m1",
       ({ data := Json.str "x", created_at := 0, updated_at := none } : StoredRecord),
       (3600 : Int))] { data := none, extra_time := some 120 } (by decide)
     { memory_id := "m1", data := Json.str "x", ttl_remaining := 3600, expires_at := 3720 }
     [("user:free1:m1",
       ({ data := Json.str "x", created_at := 0, updated_at := some 0 } : StoredRecord),
       (3600 : Int))] (by rfl)
     { data := Json.str "x", created_at := 0, updated_at := some 0 } 3600 (by rfl)⟩

/-- C4 (code evaluated at the failing input): a pro-tier `POST /stash`
declaring a body of 2,097,152 bytes — well within the pro tier's
52,428,800-byte `max_payload_bytes` — is rejected 413 by the flat
pre-auth middleware ceiling and never reaches the handler; no tier-aware
payload check exists in the handler, so the tier limit is never the one
enforced. -/
theorem pro_payload_within_tier_limit_rejected :
    stashPipeline (some 2097152) [] 0 { id := "pro1", tier := UserTier.pro } "m1"
      { data := Json.str "big", ttl := 60 } = StashHttpOutcome.payloadTooLarge ∧
    (2097152 : Int) ≤ ({ id := "pro1", tier := UserTier.pro } : User).max_payload_bytes ∧
    PayloadSizeMiddleware.rejects "POST" (some 2097152) = true :=
  ⟨by rfl, by decide, by rfl⟩

/-- C5 (code evaluated at the failing input): a free-tier stash
requesting `ttl=86400` at `now=0` stores the record with the clamped TTL
3600 and reports `ttl=3600`, but the response's `expires_at` is
`now + 86400` — computed from `request.ttl`, not from the clamped TTL —
so it disagrees with the actual stored expiry `now + 3600`. -/
theorem stash_expires_at_uses_requested_ttl :
    Main.stash [] 0 { id := "free1", tier := UserTier.free } "m1"
      { data := Json.str "x", ttl := 86400 } =
      Except.ok ({ memory_id := "m1", ttl := 3600, expires_at := 86400 },
        [("user:free1:m1",
          ({ data := Json.str "x", created_at := 0, updated_at := none } : StoredRecord),
          (3600 : Int))]) ∧
    (86400 : Int) ≠ 0 + 3600 :=
  ⟨by rfl, by decide⟩

/-- C6 counterexample: a record observed with exactly 0 seconds
remaining is returned with `ttl_remaining = 0` — both by the service
`recall` and by the `GET /recall` handler — rather than reported
not-found, because the source only treats a negative TTL as absent. -/
theorem recall_returns_zero_ttl_record :
    RedisService.recall' [("user:u1:m1",
        ({ data := Json.str "x", created_at := 0, updated_at := none } : StoredRecord),
        (0 : Int))] "u1" "m1" =
      some { data := Json.str "x", ttl_remaining := 0, created_at := 0 } ∧
    Main.recall' [("user:u1:m1",
        ({ data := Json.str "x", created_at := 0, updated_at := none } : StoredRecord),
        (0 : Int))] { id := "u1", tier := UserTier.free } "m1" =
      some { memory_id := "m1", data := Json.str "x", ttl_remaining := 0 } :=
  ⟨by rfl, by rfl⟩

/-- C6 (amended): recall fails not-found when the key is absent (never
created, or deleted — including immediately after a `delete`) or when
the store reports a negative remaining TTL, and it never returns a
negative `ttl_remaining`; however a record observed with exactly 0
seconds remaining is returned with `ttl_remaining = 0`, not reported
not-found. -/
theorem recall_notfound_semantics
    (u m : String)
    (stA : Store) (hA : storeGet stA (RedisService._make_key u m) = none)
    (stB : Store) (recB : StoredRecord) (tB : Int)
    (hB : storeGet stB (RedisService._make_key u m) = some (recB, tB)) (htB : tB < 0)
    (stC : Store) (recC : StoredRecord) (tC : Int)
    (hC : storeGet stC (RedisService._make_key u m) = some (recC, tC)) (htC : 0 ≤ tC) :
    RedisService.recall' stA u m = none ∧
    RedisService.recall' stB u m = none ∧
    RedisService.recall' stC u m =
      some { data := recC.data, ttl_remaining := tC, created_at := recC.created_at } ∧
    RedisService.recall' (RedisService.delete stC u m).2 u m = none := by
  have hnn : ¬tC < 0 := by omega
  refine ⟨?_, ?_, ?_, ?_⟩
  · simp [RedisService.recall', redisGet, hA]
  · simp [RedisService.recall', redisGet, redisTtl, hB, htB]
  · simp [RedisService.recall', redisGet, redisTtl, hC, hnn]
  · simp [RedisService.recall', RedisService.delete, redisDel, redisGet, hC,
      storeGet_storeDel]

/-- C6 amended-claim witness: absent key, key with TTL `-5`, key with
TTL exactly `0`, and recall after delete, all on concrete stores. -/
theorem recall_notfound_semantics_witness :
    storeGet [] (RedisService._make_key "u1" "m1") = none ∧
    storeGet [("user:u1:m1",
        ({ data := Json.str "x", created_at := 0, updated_at := none } : StoredRecord),
        (-5 : Int))] (RedisService._make_key "u1" "m1") =
      some ({ data := Json.str "x", created_at := 0, updated_at := none }, -5) ∧
    (-5 : Int) < 0 ∧
    storeGet [("user:u1:m1",
        ({ data := Json.str "x", created_at := 0, updated_at := none } : StoredRecord),
        (0 : Int))] (RedisService._make_key "u1" "m1") =
      some ({ data := Json.str "x", created_at := 0, updated_at := none }, 0) ∧
    (0 : Int) ≤ 0 ∧
    (RedisService.recall' [] "u1" "m1" = none ∧
     RedisService.recall' [("user:u1:m1",
        ({ data := Json.str "x", created_at := 0, updated_at := none } : StoredRecord),
        (-5 : Int))] "u1" "m1" = none ∧
     RedisService.recall' [("user:u1:m1",
        ({ data := Json.str "x", created_at := 0, updated_at := none } : StoredRecord),
        (0 : Int))] "u1" "m1" =
       some { data := Json.str "x", ttl_remaining := 0, created_at := 0 } ∧
     RedisService.recall' (RedisService.delete [("user:u1:m1",
        ({ data := Json.str "x", created_at := 0, updated_at := none } : StoredRecord),
        (0 : Int))] "u1" "m1").2 "u1" "m1" = none) :=
  ⟨by rfl, by rfl, by decide, by rfl, by decide,
   recall_notfound_semantics "u1" "m1" [] (by rfl)
     [("user:u1:m1",
       ({ data := Json.str "x", created_at := 0, updated_at := none } : StoredRecord),
       (-5 : Int))]
     { data := Json.str "x", created_at := 0, updated_at := none } (-5) (by rfl) (by decide)
     [("user:u1:m1",
       ({ data := Json.str "x", created_at := 0, updated_at := none } : StoredRecord),
       (0 : Int))]
     { data := Json.str "x", created_at := 0, updated_at := none } 0 (by rfl) (by decide)⟩

/-- C7: additive TTL extension.  At the service level, on any live
record with remaining TTL `r >= 0`, `update` with `extra_time = e` sets
the new stored TTL and the reported `ttl_remaining` to `r + e` (additive,
not reset-to-`e`), while `update` on an absent key reports not-found
regardless of arguments; at the handler level, `create(ttl=60)`
immediately followed by `update(extra_time=120)` yields a reported
`ttl_remaining` strictly greater than 60 and at most
`user.max_ttl_seconds`. -/
theorem update_additive_extension
    (u m : String) (now : Nat)
    (st : Store) (rec : StoredRecord) (r : Int)
    (h1 : storeGet st (RedisService._make_key u m) = some (rec, r)) (h2 : 0 ≤ r)
    (dOpt : Option Json) (e : Int) (h3 : 1 ≤ e)
    (stX : Store) (hX : storeGet stX (RedisService._make_key u m) = none)
    (dX : Option Json) (eX : Option Int)
    (user : User) (d : Json)
    (resp1 : StashResponse) (st1 : Store)
    (hS : Main.stash [] now user m { data := d, ttl := 60 } = Except.ok (resp1, st1))
    (resp2 : UpdateResponse) (st2 : Store)
    (hU : Main.update st1 now user m { data := none, extra_time := some 120 } =
      Except.ok (some (resp2, st2))) :
    RedisService.update st now u m dOpt (some e) =
      Except.ok (some { data := (match dOpt with | some dd => dd | none => rec.data),
                        ttl_remaining := r + e },
        storeSet st (RedisService._make_key u m)
          ({ data := (match dOpt with | some dd => dd | none => rec.data),
             created_at := rec.created_at, updated_at := some now }, r + e)) ∧
    RedisService.update stX now u m dX eX = Except.ok (none, stX) ∧
    60 < resp2.ttl_remaining ∧ resp2.ttl_remaining ≤ user.max_ttl_seconds := by
  have hmax := max_ttl_seconds_ge user
  have hg1 : redisGet st (RedisService._make_key u m) = some rec := by
    simp [redisGet, h1]
  have ht1 : redisTtl st (RedisService._make_key u m) = r := by
    simp [redisTtl, h1]
  have hnn : ¬r < 0 := by omega
  have hre : (1 : Int) ≤ r + e := by omega
  refine ⟨?_, ?_, ?_⟩
  · cases dOpt <;>
      simp [RedisService.update, hg1, ht1, hnn, redisSetex, hre]
  · have hgX : redisGet stX (RedisService._make_key u m) = none := by
      simp [redisGet, hX]
    simp [RedisService.update, hgX]
  · have hmin60 : min (60 : Int) user.max_ttl_seconds = 60 := min_eq_left (by omega)
    have h160 : (1 : Int) ≤ min 60 user.max_ttl_seconds := by omega
    simp only [Main.stash, RedisService.stash, redisSetex, if_pos h160,
      Except.ok.injEq, Prod.mk.injEq] at hS
    obtain ⟨hresp1, hst1⟩ := hS
    subst hst1
    rw [hmin60] at hU
    have hg2 : redisGet
        (storeSet [] (RedisService._make_key user.id m)
          ({ data := d, created_at := now, updated_at := none }, 60))
        (RedisService._make_key user.id m) =
        some { data := d, created_at := now, updated_at := none } := by
      simp [redisGet, storeGet_storeSet]
    have ht2 : redisTtl
        (storeSet [] (RedisService._make_key user.id m)
          ({ data := d, created_at := now, updated_at := none }, 60))
        (RedisService._make_key user.id m) = 60 := by
      simp [redisTtl, storeGet_storeSet]
    have hnc : ¬(user.max_ttl_seconds < (180 : Int)) := by omega
    simp only [Main.update, RedisService.update, hg2, ht2, redisSetex,
      Except.ok.injEq, Option.some.injEq, Prod.mk.injEq] at hU
    norm_num at hU
    rw [if_neg hnc] at hU
    obtain ⟨hresp2, hst2⟩ := hU
    rw [← hresp2]
    constructor
    · norm_num
    · simpa using (by omega : (180 : Int) ≤ user.max_ttl_seconds)

/-- C7 witness: a live record with 50s remaining extended by 120s to
170s at the service level; update on the empty store reporting
not-found; and the free-tier `create(ttl=60)` then `update(extra=120)`
scenario reporting `ttl_remaining = 180` with `60 < 180 ≤ 3600`. -/
theorem update_additive_extension_witness :
    storeGet [("user:u1:m1",
        ({ data := Json.str "a", created_at := 0, updated_at := none } : StoredRecord),
        (50 : Int))] (RedisService._make_key "u1" "m1") =
      some ({ data := Json.str "a", created_at := 0, updated_at := none }, 50) ∧
    (0 : Int) ≤ 50 ∧ (1 : Int) ≤ 120 ∧
    storeGet [] (RedisService._make_key "u1" "m1") = none ∧
    Main.stash [] 0 { id := "free1", tier := UserTier.free } "m1"
      { data := Json.str "b", ttl := 60 } =
      Except.ok ({ memory_id := "m1", ttl := 60, expires_at := 60 },
        [("user:free1:m1",
          ({ data := Json.str "b", created_at := 0, updated_at := none } : StoredRecord),
          (60 : Int))]) ∧
    Main.update [("user:free1:m1",
        ({ data := Json.str "b", created_at := 0, updated_at := none } : StoredRecord),
        (60 : Int))] 0 { id := "free1", tier := UserTier.free } "m1"
      { data := none, extra_time := some 120 } =
      Except.ok (some ({ memory_id := "m1", data := Json.str "b", ttl_remaining := 180, expires_at := 180 },
        [("user:free1:m1",
          ({ data := Json.str "b", created_at := 0, updated_at := some 0 } : StoredRecord),
          (180 : Int))])) ∧
    (RedisService.update [("user:u1:m1",
        ({ data := Json.str "a", created_at := 0, updated_at := none } : StoredRecord),
        (50 : Int))] 0 "u1" "m1" none (some 120) =
      Except.ok (some { data := Json.str "a", ttl_remaining := 170 },
        [("user:u1:m1",
          ({ data := Json.str "a", created_at := 0, updated_at := some 0 } : StoredRecord),
          (170 : Int))]) ∧
     RedisService.update [] 0 "u1" "m1" none (some 7) = Except.ok (none, []) ∧
     (60 : Int) < 180 ∧ (180 : Int) ≤ 3600) :=
  ⟨by rfl, by decide, by decide, by rfl, by rfl, by rfl,
   by
    have h := update_additive_extension "u1" "m1" 0
      [("user:u1:m1",
        ({ data := Json.str "a", created_at := 0, updated_at := none } : StoredRecord),
        (50 : Int))]
      { data := Json.str "a", created_at := 0, updated_at := none } 50 (by rfl) (by decide)
      none 120 (by decide)
      [] (by rfl) none (some 7)
      { id := "free1", tier := UserTier.free } (Json.str "b")
      { memory_id := "m1", ttl := 60, expires_at := 60 }
      [("user:free1:m1",
        ({ data := Json.str "b", created_at := 0, updated_at := none } : StoredRecord),
        (60 : Int))] (by rfl)
      { memory_id := "m1", data := Json.str "b", ttl_remaining := 180, expires_at := 180 }
      [("user:free1:m1",
        ({ data := Json.str "b", created_at := 0, updated_at := some 0 } : StoredRecord),
        (180 : Int))] (by rfl)
    exact ⟨h.1, h.2.1, h.2.2.1, h.2.2.2⟩⟩

/-- C8 counterexample: an enterprise-tier store request that supplies no
TTL is parsed with the flat schema-level default 3600 and is stored and
answered with TTL 3600 — not the tier's `default_ttl_seconds` of 86400,
which no handler ever consults. -/
theorem enterprise_no_ttl_gets_flat_default :
    parseStashRequest { data := Json.str "x", ttl := none } =
      some { data := Json.str "x", ttl := 3600 } ∧
    Main.stash [] 0 { id := "ent1", tier := UserTier.enterprise } "m1"
      { data := Json.str "x", ttl := 3600 } =
      Except.ok ({ memory_id := "m1", ttl := 3600, expires_at := 3600 },
        [("user:ent1:m1",
          ({ data := Json.str "x", created_at := 0, updated_at := none } : StoredRecord),
          (3600 : Int))]) ∧
    User.default_ttl_seconds { id := "ent1", tier := UserTier.enterprise } = 86400 ∧
    (3600 : Int) ≠ 86400 :=
  ⟨by rfl, by rfl, by rfl, by decide⟩

/-- C8 (amended): a store request that supplies no TTL is parsed with
the schema-level default of 3600 seconds — the same for every tier, the
per-tier `default_ttl_seconds` being unused — and the record is stored
with TTL 3600 and the response reports TTL 3600. -/
theorem no_ttl_request_stores_flat_3600
    (user : User) (dta : Json) (st : Store) (m : String) (now : Nat)
    (req : StashRequest)
    (hP : parseStashRequest { data := dta, ttl := none } = some req)
    (resp : StashResponse) (st2 : Store)
    (hrun : Main.stash st now user m req = Except.ok (resp, st2)) :
    req.ttl = 3600 ∧ resp.ttl = 3600 ∧
    storeGet st2 (RedisService._make_key user.id m) =
      some ({ data := dta, created_at := now, updated_at := none }, 3600) := by
  have hmax := max_ttl_seconds_ge user
  have hreq : req = { data := dta, ttl := 3600 } := by
    simp [parseStashRequest] at hP
    exact hP.symm
  subst hreq
  have hmin : min (3600 : Int) user.max_ttl_seconds = 3600 := min_eq_left hmax
  have h1 : (1 : Int) ≤ min 3600 user.max_ttl_seconds := by omega
  simp only [Main.stash, RedisService.stash, redisSetex, if_pos h1,
    Except.ok.injEq, Prod.mk.injEq] at hrun
  obtain ⟨hresp, hst⟩ := hrun
  subst hst
  refine ⟨rfl, ?_, ?_⟩
  · rw [← hresp]
    simp [hmin]
  · rw [storeGet_storeSet, if_pos rfl, hmin]

/-- C8 amended-claim witness: a pro-tier no-TTL request is stored and
answered with TTL 3600. -/
theorem no_ttl_request_stores_flat_3600_witness :
    parseStashRequest { data := Json.str "x", ttl := none } =
      some { data := Json.str "x", ttl := 3600 } ∧
    Main.stash [] 0 { id := "pro1", tier := UserTier.pro } "m1"
      { data := Json.str "x", ttl := 3600 } =
      Except.ok ({ memory_id := "m1", ttl := 3600, expires_at := 3600 },
        [("user:pro1:m1",
          ({ data := Json.str "x", created_at := 0, updated_at := none } : StoredRecord),
          (3600 : Int))]) ∧
    ((3600 : Int) = 3600 ∧ (3600 : Int) = 3600 ∧
     storeGet [("user:pro1:m1",
        ({ data := Json.str "x", created_at := 0, updated_at := none } : StoredRecord),
        (3600 : Int))] (RedisService._make_key "pro1" "m1") =
      some ({ data := Json.str "x", created_at := 0, updated_at := none }, 3600)) :=
  ⟨by rfl, by rfl,
   no_ttl_request_stores_flat_3600 { id := "pro1", tier := UserTier.pro }
     (Json.str "x") [] "m1" 0 { data := Json.str "x", ttl := 3600 } (by rfl)
     { memory_id := "m1", ttl := 3600, expires_at := 3600 }
     [("user:pro1:m1",
       ({ data := Json.str "x", created_at := 0, updated_at := none } : StoredRecord),
       (3600 : Int))] (by rfl)⟩

/-- C9 counterexample: when the Redis ping at startup fails, `connect`
silently installs the in-memory fakeredis substitute, a subsequent store
operation succeeds against it with a non-error result, and `GET /health`
reports the redis check as `connected` with overall status `healthy` —
the exact behaviour the claim rules out. -/
theorem connect_failure_silently_falls_back :
    RedisService.connect false = RedisService.RedisClient.fake ∧
    Main.health_check (RedisService.connect false) false true =
      { status := "healthy", redis := "connected", user_db := "connected" } ∧
    RedisService.stash [] 0 "u1" "m1" (Json.str "x") 60 =
      Except.ok [("user:u1:m1",
        ({ data := Json.str "x", created_at := 0, updated_at := none } : StoredRecord),
        (60 : Int))] :=
  ⟨by rfl, by rfl, by rfl⟩

/-- C9 (amended): startup connection failure is swallowed — `connect`
falls back to fakeredis, against which operations succeed and whose ping
always answers, so health reports `connected`; a `disconnected` redis
check is reported only when the held client is the real one and its ping
fails, and even then the overall status stays `healthy`. -/
theorem connect_fallback_semantics (up dbOk : Bool) :
    RedisService.connect false = RedisService.RedisClient.fake ∧
    RedisService.connect true = RedisService.RedisClient.real ∧
    Main.health_check RedisService.RedisClient.fake up dbOk =
      { status := "healthy", redis := "connected",
        user_db := if dbOk then "connected" else "disconnected" } ∧
    Main.health_check RedisService.RedisClient.real false dbOk =
      { status := "healthy", redis := "disconnected",
        user_db := if dbOk then "connected" else "disconnected" } := by
  cases up <;> cases dbOk <;> exact ⟨rfl, rfl, rfl, rfl⟩

/-- C10: frame property of update.  With the `data` argument absent,
`update` rewrites the record keeping the stored value and `created_at`
unchanged — only `updated_at` and the expiry change; and since pydantic
maps a JSON `null` `data` field to `None` (absent), no update request
can ever carry `some null` into the service, so an update can never
replace the stored value with JSON null. -/
theorem update_none_data_preserves_stored_value
    (u m : String) (now : Nat)
    (st : Store) (rec : StoredRecord) (r : Int)
    (h1 : storeGet st (RedisService._make_key u m) = some (rec, r)) (h2 : 0 ≤ r)
    (e : Int) (h3 : 1 ≤ e) (rawData : Option Json) :
    RedisService.update st now u m none (some e) =
      Except.ok (some { data := rec.data, ttl_remaining := r + e },
        storeSet st (RedisService._make_key u m)
          ({ data := rec.data, created_at := rec.created_at,
             updated_at := some now }, r + e)) ∧
    parseUpdateData (some Json.null) = none ∧
    parseUpdateData none = none ∧
    parseUpdateData rawData ≠ some Json.null := by
  have hg1 : redisGet st (RedisService._make_key u m) = some rec := by
    simp [redisGet, h1]
  have ht1 : redisTtl st (RedisService._make_key u m) = r := by
    simp [redisTtl, h1]
  have hnn : ¬r < 0 := by omega
  have hre : (1 : Int) ≤ r + e := by omega
  refine ⟨?_, by rfl, by rfl, ?_⟩
  · simp [RedisService.update, hg1, ht1, hnn, redisSetex, hre]
  · rcases rawData with _ | j
    · simp [parseUpdateData]
    · cases j <;> simp [parseUpdateData]

/-- C10 witness: a record holding `7` with 100s remaining, updated with
only `extra_time=60` at time 9: the stored value and `created_at` are
untouched, `updated_at` becomes 9, the TTL becomes 160; and the raw
`data: null` field parses to absent. -/
theorem update_none_data_preserves_stored_value_witness :
    storeGet [("user:u1:m1",
        ({ data := Json.num 7, created_at := 3, updated_at := none } : StoredRecord),
        (100 : Int))] (RedisService._make_key "u1" "m1") =
      some ({ data := Json.num 7, created_at := 3, updated_at := none }, 100) ∧
    (0 : Int) ≤ 100 ∧ (1 : Int) ≤ 60 ∧
    (RedisService.update [("user:u1:m1",
        ({ data := Json.num 7, created_at := 3, updated_at := none } : StoredRecord),
        (100 : Int))] 9 "u1" "m1" none (some 60) =
      Except.ok (some { data := Json.num 7, ttl_remaining := 160 },
        [("user:u1:m1",
          ({ data := Json.num 7, created_at := 3, updated_at := some 9 } : StoredRecord),
          (160 : Int))]) ∧
     parseUpdateData (some Json.null) = none ∧
     parseUpdateData none = none ∧
     parseUpdateData (some Json.null) ≠ some Json.null) :=
  ⟨by rfl, by decide, by decide,
   update_none_data_preserves_stored_value "u1" "m1" 9
     [("user:u1:m1",
       ({ data := Json.num 7, created_at := 3, updated_at := none } : StoredRecord),
       (100 : Int))]
     { data := Json.num 7, created_at := 3, updated_at := none } 100 (by rfl) (by decide)
     60 (by decide) (some Json.null)⟩
